import Mathlib

/-!
Verification of the EPL analytics dashboard (`src/app.py`).

The app is a single script over a pandas DataFrame of match records.  We embed
the data model and the computational parts (filter pipeline, league-table
aggregation and ranking, outcome predictor, per-row scoring) as executable
Lean definitions over lists of records, and prove the documented properties.

Conventions of the embedding:
- a DataFrame of match rows is a `List MatchRecord`, kept in file order;
- goal counts are `Nat` (CSV integers), Python `int` subtraction is `Int`;
- real-valued arithmetic (means, confidence) is over `ℚ`, which is exact for
  the dyadic/decimal values involved;
- dates are embedded as `Int` ordinals, since only comparisons are used;
- Python code that can raise returns `Option` (`none` = the raised exception).
-/

/-- One row of the match DataFrame: the columns of the CSV that the
computations read (`HomeTeam`, `AwayTeam`, `FullTimeHomeGoals`,
`FullTimeAwayGoals`, `FullTimeResult`, `Season`, `MatchDate`). -/
structure MatchRecord where
  homeTeam : String
  awayTeam : String
  fullTimeHomeGoals : Nat
  fullTimeAwayGoals : Nat
  fullTimeResult : String
  season : String
  matchDate : Int
deriving DecidableEq

/-- The sidebar filter state: selected teams, selected seasons, the date-range
widget value (the app only applies it when it has exactly two entries, since
the Streamlit widget can momentarily hold one), and the total-goals slider. -/
structure FilterSpec where
  teams : List String
  seasons : List String
  dateRange : List Int
  minGoals : Nat
  maxGoals : Nat
deriving DecidableEq

/-- The computed `TotalGoals` column: `FullTimeHomeGoals + FullTimeAwayGoals`. -/
def totalGoals (r : MatchRecord) : Nat :=
  r.fullTimeHomeGoals + r.fullTimeAwayGoals

/-- Team filter (`if selected_teams:` block): keep rows whose home or away
team is selected; an empty selection applies no constraint. -/
def applyTeamFilter (df : List MatchRecord) (teams : List String) : List MatchRecord :=
  if teams.isEmpty then df
  else df.filter fun r => decide (r.homeTeam ∈ teams) || decide (r.awayTeam ∈ teams)

/-- Season filter (`if ... selected_seasons:` block): keep rows whose season is
selected; an empty selection applies no constraint. -/
def applySeasonFilter (df : List MatchRecord) (seasons : List String) : List MatchRecord :=
  if seasons.isEmpty then df
  else df.filter fun r => decide (r.season ∈ seasons)

/-- Date filter (`if ... len(date_range) == 2:` block): applied only when the
widget value has exactly two entries. -/
def applyDateFilter (df : List MatchRecord) (dateRange : List Int) : List MatchRecord :=
  match dateRange with
  | [s, e] => df.filter fun r => decide (s ≤ r.matchDate) && decide (r.matchDate ≤ e)
  | _ => df

/-- Goals filter: keep rows whose `TotalGoals` lies in the slider range.  This
filter is always applied (the slider always has a value). -/
def applyGoalsFilter (df : List MatchRecord) (minGoals maxGoals : Nat) : List MatchRecord :=
  df.filter fun r => decide (minGoals ≤ totalGoals r) && decide (totalGoals r ≤ maxGoals)

/-- The full filter pipeline producing `filtered_df` (app.py lines 100-121):
team, season and date filters in sequence, then the total-goals filter. -/
def applyFilters (df : List MatchRecord) (fs : FilterSpec) : List MatchRecord :=
  applyGoalsFilter
    (applyDateFilter
      (applySeasonFilter
        (applyTeamFilter df fs.teams)
        fs.seasons)
      fs.dateRange)
    fs.minGoals fs.maxGoals

/-- The specification's conjunction of active filter predicates, transcribed
from the spec's words: (home ∈ teams ∨ away ∈ teams) ∧ season ∈ seasons ∧
start ≤ date ≤ end ∧ min ≤ totalGoals ≤ max, where an empty/absent dimension
is a pass-through constraint. -/
def satisfiesActiveFilters (fs : FilterSpec) (r : MatchRecord) : Prop :=
  (fs.teams = [] ∨ r.homeTeam ∈ fs.teams ∨ r.awayTeam ∈ fs.teams) ∧
  (fs.seasons = [] ∨ r.season ∈ fs.seasons) ∧
  (∀ s e : Int, fs.dateRange = [s, e] → s ≤ r.matchDate ∧ r.matchDate ≤ e) ∧
  (fs.minGoals ≤ totalGoals r ∧ totalGoals r ≤ fs.maxGoals)

theorem mem_applyTeamFilter (df : List MatchRecord) (teams : List String) (r : MatchRecord) :
    r ∈ applyTeamFilter df teams ↔
      r ∈ df ∧ (teams = [] ∨ r.homeTeam ∈ teams ∨ r.awayTeam ∈ teams) := by
  cases teams <;> simp [applyTeamFilter, List.mem_filter]

theorem mem_applySeasonFilter (df : List MatchRecord) (seasons : List String) (r : MatchRecord) :
    r ∈ applySeasonFilter df seasons ↔
      r ∈ df ∧ (seasons = [] ∨ r.season ∈ seasons) := by
  cases seasons <;> simp [applySeasonFilter, List.mem_filter]

theorem mem_applyDateFilter (df : List MatchRecord) (dateRange : List Int) (r : MatchRecord) :
    r ∈ applyDateFilter df dateRange ↔
      r ∈ df ∧ (∀ s e : Int, dateRange = [s, e] → s ≤ r.matchDate ∧ r.matchDate ≤ e) := by
  rcases dateRange with _ | ⟨s, _ | ⟨e, _ | ⟨c, rest⟩⟩⟩ <;>
    simp [applyDateFilter, List.mem_filter]

theorem mem_applyGoalsFilter (df : List MatchRecord) (mn mx : Nat) (r : MatchRecord) :
    r ∈ applyGoalsFilter df mn mx ↔
      r ∈ df ∧ (mn ≤ totalGoals r ∧ totalGoals r ≤ mx) := by
  simp [applyGoalsFilter, List.mem_filter]

/-- C1: the filtered output contains exactly the input records satisfying the
conjunction of active predicates — (home ∈ teams ∨ away ∈ teams), season
membership, date range, and total-goals range — with every empty/absent
dimension treated as a pass-through constraint. -/
theorem filtered_mem_iff (df : List MatchRecord) (fs : FilterSpec) (r : MatchRecord) :
    r ∈ applyFilters df fs ↔ r ∈ df ∧ satisfiesActiveFilters fs r := by
  unfold applyFilters satisfiesActiveFilters
  rw [mem_applyGoalsFilter, mem_applyDateFilter, mem_applySeasonFilter, mem_applyTeamFilter]
  tauto

/-- The two-record example dataset used throughout the specification:
A beats B 2-1 at home, then B and A draw 0-0. -/
def specExampleRecords : List MatchRecord :=
  [⟨"A", "B", 2, 1, "H", "S1", 0⟩,
   ⟨"B", "A", 0, 0, "D", "S1", 1⟩]

/-- Filter specification with only the goals range (3, 10) active. -/
def goalsRange310 : FilterSpec := ⟨[], [], [], 3, 10⟩

/-- C1 witness: on the spec's example dataset, the goals range (3, 10) keeps
exactly the first record (total goals 3) and drops the 0-0 draw, and the
membership characterization holds at that concrete instance. -/
theorem filtered_mem_iff_witness :
    applyFilters specExampleRecords goalsRange310 = [⟨"A", "B", 2, 1, "H", "S1", 0⟩] ∧
      (⟨"B", "A", 0, 0, "D", "S1", 1⟩ ∈ applyFilters specExampleRecords goalsRange310 ↔
        (⟨"B", "A", 0, 0, "D", "S1", 1⟩ : MatchRecord) ∈ specExampleRecords ∧
          satisfiesActiveFilters goalsRange310 ⟨"B", "A", 0, 0, "D", "S1", 1⟩) :=
  ⟨by decide, filtered_mem_iff specExampleRecords goalsRange310 ⟨"B", "A", 0, 0, "D", "S1", 1⟩⟩

/-- One row of the league table (app.py lines 194-206), with the columns the
claims are about.  `losses` is Python integer subtraction, so it is `Int`;
`Position` starts at 0 and is assigned after ranking. -/
structure TeamStanding where
  team : String
  played : Nat
  wins : Nat
  draws : Nat
  losses : Int
  gf : Nat
  ga : Nat
  gd : Int
  points : Nat
  position : Nat
deriving DecidableEq

/-- The body of the league-table loop (app.py lines 178-206) for one team:
count home and away appearances, wins, draws, sum goals, and derive losses,
goal difference and points. -/
def teamStanding (df : List MatchRecord) (team : String) : TeamStanding :=
  let home := df.filter fun r => r.homeTeam == team
  let away := df.filter fun r => r.awayTeam == team
  let played := home.length + away.length
  let wins := (home.filter fun r => r.fullTimeResult == "H").length +
    (away.filter fun r => r.fullTimeResult == "A").length
  let draws := (home.filter fun r => r.fullTimeResult == "D").length +
    (away.filter fun r => r.fullTimeResult == "D").length
  let losses : Int := (played : Int) - wins - draws
  let gf := (home.map fun r => r.fullTimeHomeGoals).sum +
    (away.map fun r => r.fullTimeAwayGoals).sum
  let ga := (home.map fun r => r.fullTimeAwayGoals).sum +
    (away.map fun r => r.fullTimeHomeGoals).sum
  let gd : Int := (gf : Int) - ga
  let points := wins * 3 + draws
  ⟨team, played, wins, draws, losses, gf, ga, gd, points, 0⟩

/-- The league-table loop over the shown teams: a team whose `played` count is
zero is skipped (`if played == 0: continue`), all others contribute one row in
iteration order. -/
def leagueRows (df : List MatchRecord) (teams : List String) : List TeamStanding :=
  teams.filterMap fun t =>
    if (teamStanding df t).played = 0 then none else some (teamStanding df t)

/-- C2: every row of the league table satisfies wins + draws + losses = played
(as Python integers) and points = wins * 3 + draws. -/
theorem standing_invariants (df : List MatchRecord) (teams : List String)
    (s : TeamStanding) (hs : s ∈ leagueRows df teams) :
    (s.wins : Int) + s.draws + s.losses = s.played ∧ s.points = s.wins * 3 + s.draws := by
  obtain ⟨t, ht, hf⟩ := List.mem_filterMap.mp hs
  by_cases hp : (teamStanding df t).played = 0
  · simp [hp] at hf
  · simp only [hp, if_false, Option.some.injEq] at hf
    subst hf
    refine ⟨?_, rfl⟩
    simp only [teamStanding]
    push_cast
    ring

/-- C2 witness: on the spec's example dataset with teams A and B shown, team
A's row is exactly the standing the spec's example gives (played 2, 1 win,
1 draw, 0 losses, 2 for, 1 against, 4 points), and the invariants hold there
by the theorem. -/
theorem standing_invariants_witness :
    teamStanding specExampleRecords "A" = ⟨"A", 2, 1, 1, 0, 2, 1, 1, 4, 0⟩ ∧
      teamStanding specExampleRecords "A" ∈ leagueRows specExampleRecords ["A", "B"] ∧
      ((teamStanding specExampleRecords "A").wins : Int) +
          (teamStanding specExampleRecords "A").draws +
          (teamStanding specExampleRecords "A").losses =
        (teamStanding specExampleRecords "A").played ∧
      (teamStanding specExampleRecords "A").points =
        (teamStanding specExampleRecords "A").wins * 3 +
          (teamStanding specExampleRecords "A").draws :=
  ⟨by decide, by decide,
    standing_invariants specExampleRecords ["A", "B"] _ (by decide)⟩

/-- The comparison behind `sort_values(by=['Points', 'GD'], ascending=False)`:
row `a` may precede row `b` when `a` strictly beats `b` on points, or ties on
points with at least `b`'s goal difference. -/
def rankLE (a b : TeamStanding) : Bool :=
  decide (b.points < a.points) || (a.points == b.points && decide (b.gd ≤ a.gd))

theorem rankLE_iff (a b : TeamStanding) :
    rankLE a b = true ↔ b.points < a.points ∨ (a.points = b.points ∧ b.gd ≤ a.gd) := by
  simp [rankLE]

theorem rankLE_trans (a b c : TeamStanding) :
    rankLE a b → rankLE b c → rankLE a c := by
  intro hab hbc
  rw [rankLE_iff] at *
  omega

theorem rankLE_total (a b : TeamStanding) : rankLE a b || rankLE b a := by
  rw [Bool.or_eq_true, rankLE_iff, rankLE_iff]
  omega

/-- The ranking step (app.py line 208).  A multi-column pandas
`sort_values(by=['Points', 'GD'], ascending=False)` is a stable lexicographic
sort (numpy `lexsort`), which we embed as the stable `mergeSort` on `rankLE`. -/
def sortStandings (rows : List TeamStanding) : List TeamStanding :=
  rows.mergeSort rankLE

/-- C3: the league ranking is a stable sort on (points desc, goal-difference
desc) — the output is a permutation of the input, is pairwise ordered by the
descending lexicographic key with no third tiebreak, adjacent pairs tied on
both keys keep their input order, and re-sorting the result changes nothing. -/
theorem ranking_stable_sort (l : List TeamStanding) :
    List.Perm (sortStandings l) l ∧
      (sortStandings l).Pairwise
        (fun a b => b.points < a.points ∨ (a.points = b.points ∧ b.gd ≤ a.gd)) ∧
      (∀ a b : TeamStanding, a.points = b.points → a.gd = b.gd →
        List.Sublist [a, b] l → List.Sublist [a, b] (sortStandings l)) ∧
      sortStandings (sortStandings l) = sortStandings l := by
  refine ⟨List.mergeSort_perm l rankLE, ?_, ?_, ?_⟩
  · exact (List.sorted_mergeSort rankLE_trans rankLE_total l).imp
      (fun h => (rankLE_iff _ _).mp h)
  · intro a b hp hg hsub
    exact List.pair_sublist_mergeSort rankLE_trans rankLE_total
      (by rw [rankLE_iff]; omega) hsub
  · exact List.mergeSort_of_sorted (List.sorted_mergeSort rankLE_trans rankLE_total l)

/-- Two rows tied on points and goal difference, used to exercise stability. -/
def tiedRowA : TeamStanding := ⟨"A", 1, 0, 1, 0, 1, 1, 0, 1, 0⟩

/-- Second tied row, differing from `tiedRowA` only in name and goal counts. -/
def tiedRowB : TeamStanding := ⟨"B", 1, 0, 1, 0, 2, 2, 0, 1, 0⟩

/-- C3 witness: on a concrete two-row table tied on both keys, the sort is a
permutation and the tied pair keeps its input order. -/
theorem ranking_stable_sort_witness :
    List.Perm (sortStandings [tiedRowA, tiedRowB]) [tiedRowA, tiedRowB] ∧
      List.Sublist [tiedRowA, tiedRowB] (sortStandings [tiedRowA, tiedRowB]) :=
  ⟨(ranking_stable_sort [tiedRowA, tiedRowB]).1,
    (ranking_stable_sort [tiedRowA, tiedRowB]).2.2.1 tiedRowA tiedRowB
      (by decide) (by decide) (List.Sublist.refl _)⟩

/-- Copy of a standing with the `Position` column overwritten. -/
def setPosition (s : TeamStanding) (p : Nat) : TeamStanding :=
  ⟨s.team, s.played, s.wins, s.draws, s.losses, s.gf, s.ga, s.gd, s.points, p⟩

/-- Position assignment (app.py line 209):
`league_df['Position'] = range(1, len(league_df) + 1)` gives the i-th sorted
row position i + 1. -/
def assignPositions (rows : List TeamStanding) : List TeamStanding :=
  rows.zipWith setPosition (List.range' 1 rows.length)

/-- The finished league table: aggregate, sort, then number the rows. -/
def rankedTable (df : List MatchRecord) (teams : List String) : List TeamStanding :=
  assignPositions (sortStandings (leagueRows df teams))

theorem map_position_zipWith_setPosition (l : List TeamStanding) (i : Nat) :
    (l.zipWith setPosition (List.range' i l.length)).map (fun s => s.position) =
      List.range' i l.length := by
  induction l generalizing i with
  | nil => simp
  | cons a l ih =>
    rw [List.length_cons, List.range'_succ]
    simp only [List.zipWith_cons_cons, List.map_cons, setPosition]
    rw [ih]

theorem length_assignPositions (l : List TeamStanding) :
    (assignPositions l).length = l.length := by
  simp [assignPositions]

/-- C10: the Position values of the ranked table are exactly the consecutive
integers 1 .. n (n the number of rows) in row order, hence without gaps,
duplicates, or values outside [1, n]. -/
theorem positions_consecutive (df : List MatchRecord) (teams : List String) :
    (rankedTable df teams).map (fun s => s.position) =
        List.range' 1 (rankedTable df teams).length ∧
      ((rankedTable df teams).map (fun s => s.position)).Nodup := by
  have h : (rankedTable df teams).map (fun s => s.position) =
      List.range' 1 (rankedTable df teams).length := by
    rw [rankedTable, length_assignPositions]
    exact map_position_zipWith_setPosition _ 1
  exact ⟨h, by rw [h]; exact List.nodup_range' _ _⟩

/-- C8: a team appears in the league table exactly when it is among the shown
teams and has a nonzero number of filtered matches; in particular a team with
zero matches is excluded entirely rather than shown as a row of zeros. -/
theorem zero_match_team_excluded (df : List MatchRecord) (teams : List String) (t : String) :
    t ∈ (leagueRows df teams).map (fun s => s.team) ↔
      t ∈ teams ∧ (teamStanding df t).played ≠ 0 := by
  simp only [leagueRows, List.mem_map, List.mem_filterMap]
  constructor
  · rintro ⟨s, ⟨u, hu, hf⟩, hteam⟩
    by_cases hp : (teamStanding df u).played = 0
    · simp [hp] at hf
    · simp only [hp, if_false, Option.some.injEq] at hf
      subst hf
      have hut : u = t := hteam
      subst hut
      exact ⟨hu, hp⟩
  · rintro ⟨ht, hp⟩
    exact ⟨teamStanding df t, ⟨t, ht, by simp [hp]⟩, rfl⟩

/-- Mean of a list of goal counts as an exact rational (pandas `.mean()`;
only ever evaluated on nonempty lists in guarded code). -/
def listMean (xs : List Nat) : ℚ :=
  (xs.sum : ℚ) / (xs.length : ℚ)

/-- The values shown by the predictor: outcome label, confidence percentage,
expected combined goals. -/
structure PredictionResult where
  prediction : String
  confidence : ℚ
  predictedGoals : ℚ
deriving DecidableEq

/-- The fixed-threshold decision rule (app.py lines 310-318) applied to the
two strengths: label plus confidence.  The source's literal 0.5 is the exact
rational 1/2. -/
def decision (homeStrength awayStrength : ℚ) : String × ℚ :=
  if homeStrength > awayStrength + 1/2 then
    ("Home Win", min 95 (60 + |homeStrength - awayStrength| * 10))
  else if awayStrength > homeStrength + 1/2 then
    ("Away Win", min 95 (60 + |awayStrength - homeStrength| * 10))
  else
    ("Draw", 50)

theorem decision_one_neg_one : decision 1 (-1) = ("Home Win", 80) := by
  unfold decision
  rw [if_pos (by norm_num : (1 : ℚ) > -1 + 1/2)]
  rw [show |(1 : ℚ) - (-1)| = 2 by norm_num,
    show (60 : ℚ) + 2 * 10 = 80 by norm_num,
    min_eq_right (by norm_num : (80 : ℚ) ≤ 95)]

/-- The Predict Match Outcome handler (app.py lines 297-327): filter the home
team's home fixtures and the away team's away fixtures; when both are
nonempty, compute mean goals scored/conceded, strengths, and the decision,
together with expected goals; when either is empty the handler shows a
warning instead, embedded as `none`. -/
def predictOutcome (df : List MatchRecord) (homeTeam awayTeam : String) :
    Option PredictionResult :=
  let homeData := df.filter fun r => r.homeTeam == homeTeam
  let awayData := df.filter fun r => r.awayTeam == awayTeam
  if 0 < homeData.length ∧ 0 < awayData.length then
    let homeAvgScored := listMean (homeData.map fun r => r.fullTimeHomeGoals)
    let homeAvgConceded := listMean (homeData.map fun r => r.fullTimeAwayGoals)
    let awayAvgScored := listMean (awayData.map fun r => r.fullTimeAwayGoals)
    let awayAvgConceded := listMean (awayData.map fun r => r.fullTimeHomeGoals)
    let homeStrength := homeAvgScored - homeAvgConceded
    let awayStrength := awayAvgScored - awayAvgConceded
    let d := decision homeStrength awayStrength
    some ⟨d.1, d.2, max 0 ((homeAvgScored + awayAvgScored) / 2)⟩
  else
    none

/-- C4: the predictor's decision rule — "Home Win" exactly when homeStrength
exceeds awayStrength + 0.5, "Away Win" exactly when awayStrength exceeds
homeStrength + 0.5, "Draw" otherwise; confidence is min 95 (60 + 10·|Δ|) for
a decisive label and exactly 50 for a draw; and strengths 1.0 and -1.0 give
"Home Win" with confidence 80. -/
theorem prediction_decision_rule (hs as : ℚ) :
    ((decision hs as).1 = "Home Win" ↔ hs > as + 1/2) ∧
      ((decision hs as).1 = "Away Win" ↔ as > hs + 1/2) ∧
      ((decision hs as).1 = "Draw" ↔ ¬ hs > as + 1/2 ∧ ¬ as > hs + 1/2) ∧
      ((decision hs as).1 ≠ "Draw" → (decision hs as).2 = min 95 (60 + 10 * |hs - as|)) ∧
      ((decision hs as).1 = "Draw" → (decision hs as).2 = 50) ∧
      decision 1 (-1) = ("Home Win", 80) := by
  refine ⟨?_, ?_, ?_, ?_, ?_, decision_one_neg_one⟩ <;> unfold decision <;>
    split_ifs with h1 h2
  · exact iff_of_true rfl h1
  · exact iff_of_false (by simp) h1
  · exact iff_of_false (by simp) h1
  · exact iff_of_false (by simp) (by intro hc; rw [gt_iff_lt] at h1 hc; linarith)
  · exact iff_of_true rfl h2
  · exact iff_of_false (by simp) h2
  · exact iff_of_false (by simp) (fun hc => hc.1 h1)
  · exact iff_of_false (by simp) (fun hc => hc.2 h2)
  · exact iff_of_true rfl ⟨h1, h2⟩
  · intro h
    show min 95 (60 + |hs - as| * 10) = min 95 (60 + 10 * |hs - as|)
    rw [mul_comm]
  · intro h
    show min 95 (60 + |as - hs| * 10) = min 95 (60 + 10 * |hs - as|)
    rw [abs_sub_comm, mul_comm]
  · intro h
    exact absurd rfl h
  · intro h
    exact absurd h (by simp)
  · intro h
    exact absurd h (by simp)
  · intro h
    rfl

/-- C4 witness: at the spec's example strengths 1.0 and -1.0 the rule, applied
through the theorem, yields "Home Win" with confidence min 95 (60 + 10·|Δ|),
which is 80. -/
theorem prediction_decision_rule_witness :
    (decision 1 (-1)).1 = "Home Win" ∧
      (decision 1 (-1)).2 = min 95 (60 + 10 * |(1 : ℚ) - (-1)|) ∧
      (decision 1 (-1)).2 = 80 :=
  ⟨((prediction_decision_rule 1 (-1)).1).mpr (by norm_num),
    (prediction_decision_rule 1 (-1)).2.2.2.1
      (by rw [decision_one_neg_one]; decide),
    by rw [decision_one_neg_one]⟩

/-- C5: the predictor yields no numeric result exactly when the home team has
no home fixtures or the away team has no away fixtures in the filtered set
(the `len(home_data) > 0 and len(away_data) > 0` guard); equivalently, with
both nonempty it always produces a numeric result. -/
theorem predictor_insufficient_data (df : List MatchRecord) (ht at_ : String) :
    predictOutcome df ht at_ = none ↔
      df.filter (fun r => r.homeTeam == ht) = [] ∨
        df.filter (fun r => r.awayTeam == at_) = [] := by
  simp only [predictOutcome]
  split_ifs with hc
  · refine iff_of_false (by simp) ?_
    push_neg
    exact ⟨List.ne_nil_of_length_pos hc.1, List.ne_nil_of_length_pos hc.2⟩
  · refine iff_of_true rfl ?_
    rw [not_and_or, Nat.not_lt, Nat.not_lt, Nat.le_zero, Nat.le_zero,
      List.length_eq_zero, List.length_eq_zero] at hc
    exact hc

theorem decision_confidence_bounds (hs as : ℚ) :
    50 ≤ (decision hs as).2 ∧ (decision hs as).2 ≤ 95 := by
  have h1 : (0 : ℚ) ≤ |hs - as| := abs_nonneg _
  have h2 : (0 : ℚ) ≤ |as - hs| := abs_nonneg _
  unfold decision
  split_ifs
  · exact ⟨le_min (by norm_num) (by linarith), min_le_left _ _⟩
  · exact ⟨le_min (by norm_num) (by linarith), min_le_left _ _⟩
  · exact ⟨by norm_num, by norm_num⟩

/-- C6: whenever the predictor produces a result, the confidence lies in
[50, 95] and the expected combined goals value is nonnegative. -/
theorem prediction_output_bounds (df : List MatchRecord) (ht at_ : String)
    (r : PredictionResult) (hr : predictOutcome df ht at_ = some r) :
    50 ≤ r.confidence ∧ r.confidence ≤ 95 ∧ 0 ≤ r.predictedGoals := by
  simp only [predictOutcome] at hr
  split_ifs at hr with hc
  · simp only [Option.some.injEq] at hr
    subst hr
    exact ⟨(decision_confidence_bounds _ _).1, (decision_confidence_bounds _ _).2,
      le_max_left _ _⟩

/-- The one-record dataset where A beats B 2-1 at home. -/
def singleWinRecord : List MatchRecord := [⟨"A", "B", 2, 1, "H", "S1", 0⟩]

theorem predictOutcome_singleWin :
    predictOutcome singleWinRecord "A" "B" = some ⟨"Home Win", 80, 3/2⟩ := by
  simp only [predictOutcome]
  rw [if_pos (by decide)]
  rw [show List.map (fun r => r.fullTimeHomeGoals)
      (List.filter (fun r => r.homeTeam == "A") singleWinRecord) = [2] from rfl,
    show List.map (fun r => r.fullTimeAwayGoals)
      (List.filter (fun r => r.homeTeam == "A") singleWinRecord) = [1] from rfl,
    show List.map (fun r => r.fullTimeAwayGoals)
      (List.filter (fun r => r.awayTeam == "B") singleWinRecord) = [1] from rfl,
    show List.map (fun r => r.fullTimeHomeGoals)
      (List.filter (fun r => r.awayTeam == "B") singleWinRecord) = [2] from rfl]
  rw [show listMean [2] = 2 by norm_num [listMean],
    show listMean [1] = 1 by norm_num [listMean]]
  rw [show (2 : ℚ) - 1 = 1 by norm_num, show (1 : ℚ) - 2 = -1 by norm_num,
    decision_one_neg_one]
  rw [show max 0 (((2 : ℚ) + 1) / 2) = 3/2 by
    rw [max_eq_right (by norm_num : (0 : ℚ) ≤ (2 + 1) / 2)]; norm_num]

/-- C6 witness: on the one-record dataset the predictor produces the concrete
result ("Home Win", 80, 3/2), whose bounds follow by the theorem. -/
theorem prediction_output_bounds_witness :
    50 ≤ (⟨"Home Win", 80, 3/2⟩ : PredictionResult).confidence ∧
      (⟨"Home Win", 80, 3/2⟩ : PredictionResult).confidence ≤ 95 ∧
      0 ≤ (⟨"Home Win", 80, 3/2⟩ : PredictionResult).predictedGoals :=
  prediction_output_bounds singleWinRecord "A" "B" ⟨"Home Win", 80, 3/2⟩
    predictOutcome_singleWin

/-- The overview metrics row (app.py lines 133-148).  Python computes
`home_wins/total_matches*100` and `away_wins/total_matches*100` with no zero
guard, so an empty filtered set raises `ZeroDivisionError`; the raising path
is embedded as `none`. -/
def overviewMetrics (df : List MatchRecord) : Option (ℚ × ℚ) :=
  let totalMatches := df.length
  let homeWins := (df.filter fun r => r.fullTimeResult == "H").length
  let awayWins := (df.filter fun r => r.fullTimeResult == "A").length
  if totalMatches = 0 then none
  else some ((homeWins : ℚ) / (totalMatches : ℚ) * 100,
    (awayWins : ℚ) / (totalMatches : ℚ) * 100)

/-- Filter specification whose goals range (5, 10) matches no record of the
spec's example dataset (total goals 3 and 0). -/
def emptyingFilter : FilterSpec := ⟨[], [], [], 5, 10⟩

/-- C7 divergence witness: a valid filter specification produces an empty
filtered set, and on it the overview percentage computation takes the
division-by-zero path (`home_wins/total_matches` with `total_matches = 0`)
instead of completing — the unguarded division the spec requires guarding. -/
theorem overview_empty_division_by_zero :
    applyFilters specExampleRecords emptyingFilter = [] ∧
      overviewMetrics (applyFilters specExampleRecords emptyingFilter) = none := by
  decide

/-- The per-row scoring helper (app.py lines 366-374): a team's points from a
match — the home branch when the row's home team is the named team, the away
branch otherwise. -/
def get_team_result (row : MatchRecord) (team : String) : Nat :=
  if row.homeTeam == team then
    if row.fullTimeResult == "H" then 3
    else if row.fullTimeResult == "D" then 1
    else 0
  else
    if row.fullTimeResult == "A" then 3
    else if row.fullTimeResult == "D" then 1
    else 0

/-- The scoring rule as the specification words it: 3 when the named team won
the match (home team with result "H", or away team with result "A"), 1 when
the result is a draw, and 0 otherwise. -/
def specTeamResult (row : MatchRecord) (team : String) : Nat :=
  if (row.homeTeam = team ∧ row.fullTimeResult = "H") ∨
      (row.awayTeam = team ∧ row.fullTimeResult = "A") then 3
  else if row.fullTimeResult = "D" then 1
  else 0

/-- A row not involving team C: A loses 0-1 at home to B. -/
def strayRow : MatchRecord := ⟨"A", "B", 0, 1, "A", "S1", 0⟩

/-- C9 counterexample: on a row whose result is "A" and a team that plays in
neither slot, `get_team_result` returns 3, although the named team did not
win and the match was no draw, so the claimed "0 otherwise" fails. -/
theorem team_result_claim_counterexample :
    get_team_result strayRow "C" = 3 ∧
      specTeamResult strayRow "C" = 0 ∧
      ¬ ((strayRow.homeTeam = "C" ∧ strayRow.fullTimeResult = "H") ∨
        (strayRow.awayTeam = "C" ∧ strayRow.fullTimeResult = "A")) ∧
      strayRow.fullTimeResult ≠ "D" := by
  decide

/-- C9 amended: `get_team_result` is a pure function into {0, 1, 3}; on rows
whose home team is the named team it scores 3 for "H", 1 for "D", else 0, and
on every other row — the named team treated as the away side, whether or not
it plays — it scores 3 for "A", 1 for "D", else 0.  In particular it agrees
with the spec's won/draw/loss rule exactly on rows the named team plays in. -/
theorem team_result_amended (row : MatchRecord) (team : String) :
    (get_team_result row team = 0 ∨ get_team_result row team = 1 ∨
      get_team_result row team = 3) ∧
      (row.homeTeam = team → get_team_result row team =
        (if row.fullTimeResult = "H" then 3 else if row.fullTimeResult = "D" then 1 else 0)) ∧
      (row.homeTeam ≠ team → get_team_result row team =
        (if row.fullTimeResult = "A" then 3 else if row.fullTimeResult = "D" then 1 else 0)) := by
  unfold get_team_result
  refine ⟨?_, ?_, ?_⟩
  · split_ifs <;> simp
  · intro h
    simp [h]
  · intro h
    simp only [beq_iff_eq, h, if_false]

/-- C9 amended witness: on the example row where A beats B at home, the
amended characterization applied to team A gives the value 3. -/
theorem team_result_amended_witness :
    (get_team_result ⟨"A", "B", 2, 1, "H", "S1", 0⟩ "A" = 0 ∨
      get_team_result ⟨"A", "B", 2, 1, "H", "S1", 0⟩ "A" = 1 ∨
      get_team_result ⟨"A", "B", 2, 1, "H", "S1", 0⟩ "A" = 3) ∧
      get_team_result ⟨"A", "B", 2, 1, "H", "S1", 0⟩ "A" = 3 := by
  have h := team_result_amended ⟨"A", "B", 2, 1, "H", "S1", 0⟩ "A"
  refine ⟨h.1, ?_⟩
  have h2 := h.2.1 rfl
  simpa using h2
